import Mathlib

/-!
Shallow embedding of the `idtype` crate (src/src/lib.rs).

The crate exports three macros, `id!`, `name!` and `secret!`, each of
which stamps out a newtype wrapper:

  * `id!(T)`      generates `pub struct T(u64)` with
                  derives Copy, Clone, Eq, PartialEq, Ord, PartialOrd,
                  Hash, Debug, Deserialize, Serialize, plus
                  `new`, `get`, `Display` (decimal) and `From<u64>`.
  * `name!(T)`    generates `pub struct T(String)` with
                  derives Clone, Eq, PartialEq, Ord, PartialOrd, Hash,
                  Debug, Deserialize, Serialize, plus `new`, `get`,
                  `Display` (verbatim), `From<&str>`, `From<String>`.
  * `secret!(T)`  generates `pub struct T(secrecy::SecretString)` with
                  derives Clone, Debug, Deserialize only, plus `new`,
                  `expose`, `Display` (the fixed marker "[REDACTED]"),
                  `From<&str>`, `From<String>`.

Since every invocation of a macro produces the same shape up to the type
name, we embed one representative of each family: `Idtype.Id`,
`Idtype.Name`, `Idtype.Secret`.  Rust's `u64` is modelled as `Nat`
(with the bound `v < 2^64` as an explicit hypothesis where a claim
quantifies over u64 values; the wrappers perform no arithmetic, so no
overflow can occur).  Rust `String` / `&str` collapse to Lean `String`.
`secrecy::SecretString` is a plain wrapper around `String` whose only
role here is that the generated `Display` never consults it.

Serde serialization is modelled against a JSON-style value tree `Json`.
The derived `Serialize`/`Deserialize` for a newtype struct are
transparent: they serialize/deserialize the single field directly, with
serde's `invalid type` error on a shape mismatch.
-/

namespace Idtype

/-- JSON-style structured value tree (the serde data model restricted to
what the crate's types can meet: integer numbers, strings, booleans,
null, arrays, objects). -/
inductive Json where
  | null : Json
  | bool (b : Bool) : Json
  | num (n : Int) : Json
  | str (s : String) : Json
  | arr (elems : List Json) : Json
  | obj (mems : List (String × Json)) : Json

/-- The "kind" of a JSON value, as reported in serde type errors. -/
inductive JsonKind where
  | nullK | boolK | numK | strK | arrK | objK
deriving DecidableEq

def Json.kind : Json → JsonKind
  | .null => .nullK
  | .bool _ => .boolK
  | .num _ => .numK
  | .str _ => .strK
  | .arr _ => .arrK
  | .obj _ => .objK

/-- Serde deserialization errors: a type mismatch (wrong JSON shape) or
an invalid value (right shape, out-of-range content). -/
inductive DeError where
  | invalidType (found : JsonKind) (expected : String) : DeError
  | invalidValue (expected : String) : DeError
deriving DecidableEq

/-- `true` exactly on a type-mismatch deserialization failure. -/
def isTypeErr {α : Type} : Except DeError α → Bool
  | .error (.invalidType _ _) => true
  | _ => false

/-- Deserializing a `u64`: accepts a JSON integer in `[0, 2^64)`,
rejects any other shape with a type error (serde's
`invalid type: ..., expected u64`). -/
def deserializeU64 : Json → Except DeError Nat
  | .num n =>
      if 0 ≤ n ∧ n < (2 : Int) ^ 64 then .ok n.toNat
      else .error (.invalidValue "u64")
  | j => .error (.invalidType j.kind "u64")

/-- Deserializing a `String`: accepts a JSON string, rejects any other
shape with a type error. -/
def deserializeString : Json → Except DeError String
  | .str s => .ok s
  | j => .error (.invalidType j.kind "a string")

/-- The trait implementations a generated type carries (its derive list
plus the explicit `impl` blocks of the macro). -/
inductive Trait where
  | Copy | Clone | Eq | PartialEq | Ord | PartialOrd | Hash | Debug
  | Display | Serialize | Deserialize | FromU64 | FromStr | FromString
deriving DecidableEq

/-- `pub struct $id(u64)` generated by `id!` (src/src/lib.rs:26-52). -/
structure Id where
  val : Nat
deriving DecidableEq

/-- `pub struct $name(String)` generated by `name!`
(src/src/lib.rs:77-109). -/
structure Name where
  val : String
deriving DecidableEq

/-- `pub struct $secret(secrecy::SecretString)` generated by `secret!`
(src/src/lib.rs:135-167).  `SecretString` wraps the string; the wrapper
only matters for `Debug`/`Display`, which never print it. -/
structure Secret where
  val : String

/-- `id!` derive list and impls (src/src/lib.rs:26, 29-52). -/
def idTraits : List Trait :=
  [.Copy, .Clone, .Eq, .PartialEq, .Ord, .PartialOrd, .Hash, .Debug,
   .Deserialize, .Serialize, .Display, .FromU64]

/-- `name!` derive list and impls (src/src/lib.rs:77, 80-109). -/
def nameTraits : List Trait :=
  [.Clone, .Eq, .PartialEq, .Ord, .PartialOrd, .Hash, .Debug,
   .Deserialize, .Serialize, .Display, .FromStr, .FromString]

/-- `secret!` derive list and impls (src/src/lib.rs:135, 138-167):
only Clone, Debug, Deserialize are derived; Display and the two From
conversions are written out by hand. -/
def secretTraits : List Trait :=
  [.Clone, .Debug, .Deserialize, .Display, .FromStr, .FromString]

/-- `$id::new` (src/src/lib.rs:31-33). -/
def Id.new (id : Nat) : Id := ⟨id⟩

/-- `$id::get` (src/src/lib.rs:36-38). -/
def Id.get (a : Id) : Nat := a.val

/-- `impl From<u64> for $id` (src/src/lib.rs:47-51). -/
def Id.fromU64 (id : Nat) : Id := ⟨id⟩

/-- Rust's `Display` for `u64` renders the decimal digits by repeated
division by 10, most significant first; a single `'0'` for zero. -/
def decimalDigits (n : Nat) : List Char :=
  if n < 10 then [Nat.digitChar n]
  else decimalDigits (n / 10) ++ [Nat.digitChar (n % 10)]
decreasing_by exact Nat.div_lt_self (by omega) (by omega)

/-- `impl Display for $id` writes `self.0` with u64's `Display`
(src/src/lib.rs:41-45). -/
def Id.display (a : Id) : String := ⟨decimalDigits a.val⟩

/-- Reads a digit string back as a number (the semantic value of a
decimal rendering). -/
def digitsVal (cs : List Char) : Nat :=
  cs.foldl (fun acc c => 10 * acc + (c.toNat - '0'.toNat)) 0

/-- Derived `Serialize` for the `id!` newtype: transparent, the bare
integer (src/src/lib.rs:26). -/
def Id.serialize (a : Id) : Json := .num a.val

/-- Derived `Deserialize` for the `id!` newtype: transparent, expects
the bare integer (src/src/lib.rs:26). -/
def Id.deserialize (j : Json) : Except DeError Id :=
  (deserializeU64 j).map Id.mk

/-- Derived `PartialOrd`/`Ord` for `struct $id(u64)`: compares the
single field. -/
def Id.lt (a b : Id) : Prop := a.val < b.val

/-- Derived `Hash` for `struct $id(u64)`: feeds the single field to the
hasher; `f` abstracts the hasher applied to a u64. -/
def Id.hashWith (f : Nat → Nat) (a : Id) : Nat := f a.val

/-- `$name::new` (src/src/lib.rs:82-84): `Self(name.into())`. -/
def Name.new (name : String) : Name := ⟨name⟩

/-- `$name::get` (src/src/lib.rs:87-89). -/
def Name.get (n : Name) : String := n.val

/-- `impl From<&str> for $name` (src/src/lib.rs:98-102). -/
def Name.fromStr (string : String) : Name := ⟨string⟩

/-- `impl From<String> for $name` (src/src/lib.rs:104-108). -/
def Name.fromString (string : String) : Name := ⟨string⟩

/-- `impl Display for $name` writes the wrapped string verbatim
(src/src/lib.rs:92-96). -/
def Name.display (n : Name) : String := n.val

/-- Derived `Serialize` for the `name!` newtype: transparent, the bare
string (src/src/lib.rs:77). -/
def Name.serialize (n : Name) : Json := .str n.val

/-- Derived `Deserialize` for the `name!` newtype: transparent, expects
the bare string (src/src/lib.rs:77). -/
def Name.deserialize (j : Json) : Except DeError Name :=
  (deserializeString j).map Name.mk

/-- Derived `PartialOrd`/`Ord` for `struct $name(String)`: compares the
single field with `String`'s ordering (lexicographic). -/
def Name.lt (a b : Name) : Prop := a.val < b.val

/-- Derived `Hash` for `struct $name(String)`: feeds the single field
to the hasher; `f` abstracts the hasher applied to a string. -/
def Name.hashWith (f : String → Nat) (n : Name) : Nat := f n.val

/-- `$secret::new` (src/src/lib.rs:140-142):
`Self(SecretString::new(String::from(secret)))`. -/
def Secret.new (secret : String) : Secret := ⟨secret⟩

/-- `$secret::expose` (src/src/lib.rs:145-148): `expose_secret` on the
wrapped `SecretString` returns the stored string. -/
def Secret.expose (s : Secret) : String := s.val

/-- `impl From<&str> for $secret` (src/src/lib.rs:157-161). -/
def Secret.fromStr (secret : String) : Secret := ⟨secret⟩

/-- `impl From<String> for $secret` (src/src/lib.rs:163-167). -/
def Secret.fromString (secret : String) : Secret := ⟨secret⟩

/-- `impl Display for $secret` writes the literal `"[REDACTED]"` and
never consults the wrapped value (src/src/lib.rs:151-155). -/
def Secret.display (_ : Secret) : String := "[REDACTED]"

/-- `Deserialize` derived for the `secret!` newtype: `SecretString`
deserializes from a bare string, so the newtype expects a bare string
(src/src/lib.rs:135). -/
def Secret.deserialize (j : Json) : Except DeError Secret :=
  (deserializeString j).map Secret.mk

/-- `pat` occurs as a contiguous run inside `s` (checked by scanning
every suffix). -/
def listInfixOf (pat : List Char) : List Char → Bool
  | [] => pat.isEmpty
  | c :: rest => pat.isPrefixOf (c :: rest) || listInfixOf pat rest

/-- `s` contains `pat` as a contiguous substring. -/
def strContains (s pat : String) : Bool := listInfixOf pat.data s.data

/-! ### Helper lemmas about the decimal rendering -/

theorem digitChar_isDigit_of_lt : ∀ d, d < 10 → (Nat.digitChar d).isDigit = true := by
  decide

theorem digitChar_toNat_of_lt :
    ∀ d, d < 10 → (Nat.digitChar d).toNat - Char.toNat '0' = d := by
  decide

theorem mem_decimalDigits_isDigit (n : Nat) :
    ∀ c ∈ decimalDigits n, c.isDigit = true := by
  induction n using Nat.strong_induction_on with
  | _ n ih =>
    rw [decimalDigits]
    by_cases h : n < 10
    · rw [if_pos h]
      intro c hc
      rw [List.mem_singleton] at hc
      subst hc
      exact digitChar_isDigit_of_lt n h
    · rw [if_neg h]
      intro c hc
      rcases List.mem_append.mp hc with hc | hc
      · exact ih (n / 10) (Nat.div_lt_self (by omega) (by omega)) c hc
      · rw [List.mem_singleton] at hc
        subst hc
        exact digitChar_isDigit_of_lt (n % 10) (Nat.mod_lt n (by omega))

theorem digitsVal_append (xs : List Char) (c : Char) :
    digitsVal (xs ++ [c]) = 10 * digitsVal xs + (c.toNat - Char.toNat '0') := by
  simp [digitsVal, List.foldl_append]

theorem digitsVal_decimalDigits (n : Nat) : digitsVal (decimalDigits n) = n := by
  induction n using Nat.strong_induction_on with
  | _ n ih =>
    rw [decimalDigits]
    by_cases h : n < 10
    · rw [if_pos h]
      show 10 * 0 + ((Nat.digitChar n).toNat - Char.toNat '0') = n
      rw [digitChar_toNat_of_lt n h]
      omega
    · rw [if_neg h, digitsVal_append,
        ih (n / 10) (Nat.div_lt_self (by omega) (by omega)),
        digitChar_toNat_of_lt (n % 10) (Nat.mod_lt n (by omega))]
      omega

/-! ### Claim theorems -/

/-- Claim C5: accessor fidelity — for every constructor input `v`,
reading back the wrapped value returns exactly `v`: `get` after `new`
for identifiers and names, `expose` after `new` for secrets. -/
theorem accessor_fidelity (v : Nat) (s : String) :
    Id.get (Id.new v) = v ∧ Name.get (Name.new s) = s ∧
    Secret.expose (Secret.new s) = s :=
  ⟨rfl, rfl, rfl⟩

/-- Claim C9: any string, the empty string included, is accepted by the
name constructor without normalization or validation, and the generated
Display renders the wrapped string verbatim. -/
theorem name_display_verbatim (s : String) :
    Name.display (Name.new s) = s ∧ Name.display (Name.new "") = "" :=
  ⟨rfl, rfl⟩

/-- Claim C10: the explicit constructor and the implicit conversions
agree — `new` equals `From<u64>` for identifiers, `new`, `From<&str>`
and `From<String>` coincide for names, and all three secret
constructors expose the same value. -/
theorem construct_convert_agree (v : Nat) (s : String) :
    Id.new v = Id.fromU64 v ∧
    Name.new s = Name.fromStr s ∧ Name.new s = Name.fromString s ∧
    Secret.expose (Secret.new s) = s ∧
    Secret.expose (Secret.fromStr s) = s ∧
    Secret.expose (Secret.fromString s) = s :=
  ⟨rfl, rfl, rfl, rfl, rfl, rfl⟩

/-- Claim C8: for every u64 value `v`, the Display rendering of the
identifier built from `v` consists of decimal digit characters only (so
no prefix and no type name), and reading those digits back as a decimal
numeral yields exactly `v`; construction is total. -/
theorem id_display_decimal (v : Nat) (_h : v < 2 ^ 64) :
    (∀ c ∈ (Id.display (Id.new v)).data, c.isDigit = true) ∧
    digitsVal (Id.display (Id.new v)).data = v :=
  ⟨mem_decimalDigits_isDigit v, digitsVal_decimalDigits v⟩

theorem id_display_decimal_witness :
    (42 : Nat) < 2 ^ 64 ∧ digitsVal (Id.display (Id.new 42)).data = 42 :=
  ⟨by norm_num, (id_display_decimal 42 (by norm_num)).2⟩

/-- Claim C2: round-trip — for every u64 value `v` and every string
`s`, deserializing the serialization of the identifier (resp. name)
constructed from the value yields exactly that identifier (resp.
name). -/
theorem serde_round_trip (v : Nat) (s : String) (h : v < 2 ^ 64) :
    Id.deserialize (Id.serialize (Id.new v)) = .ok (Id.new v) ∧
    Name.deserialize (Name.serialize (Name.new s)) = .ok (Name.new s) := by
  refine ⟨?_, rfl⟩
  show (deserializeU64 (.num (v : Int))).map Id.mk = .ok (Id.new v)
  rw [deserializeU64, if_pos ⟨Int.natCast_nonneg v, by exact_mod_cast h⟩]
  simp only [Int.toNat_natCast]
  rfl

theorem serde_round_trip_witness :
    (42 : Nat) < 2 ^ 64 ∧
    Id.deserialize (Id.serialize (Id.new 42)) = .ok (Id.new 42) :=
  ⟨by norm_num, (serde_round_trip 42 "a" (by norm_num)).1⟩

/-- Claim C3: the generated secret type carries a Deserialize
implementation — a bare JSON string deserializes to the secret wrapping
it — but its trait list contains no Serialize: no operation of the
generated API produces the raw content in structured serialized
output. -/
theorem secret_no_serialize :
    Trait.Serialize ∉ secretTraits ∧ Trait.Deserialize ∈ secretTraits ∧
    ∀ s, Secret.deserialize (Json.str s) = .ok (Secret.new s) :=
  ⟨by decide, by decide, fun _ => rfl⟩

/-- Claim C7: the secret derive list omits equality, ordering and
hashing entirely — none of Eq, PartialEq, Ord, PartialOrd or Hash is
implemented for a generated secret type. -/
theorem secret_no_eq_ord_hash :
    Trait.Eq ∉ secretTraits ∧ Trait.PartialEq ∉ secretTraits ∧
    Trait.Ord ∉ secretTraits ∧ Trait.PartialOrd ∉ secretTraits ∧
    Trait.Hash ∉ secretTraits := by
  decide

/-- Claim C4: equality, ordering and hashing delegate to the backing
value — identifiers built from `x, y` are equal iff `x = y`, ordered
iff `x < y`, and equal identifiers hash identically under any hasher;
names delegate likewise, with the order being lexicographic string
comparison. -/
theorem eq_ord_hash_delegation (x y : Nat) (s t : String)
    (f : Nat → Nat) (g : String → Nat) :
    ((Id.new x = Id.new y) ↔ x = y) ∧
    (Id.lt (Id.new x) (Id.new y) ↔ x < y) ∧
    (Id.new x = Id.new y →
      Id.hashWith f (Id.new x) = Id.hashWith f (Id.new y)) ∧
    ((Name.new s = Name.new t) ↔ s = t) ∧
    (Name.lt (Name.new s) (Name.new t) ↔
      List.Lex (· < ·) s.data t.data) ∧
    (Name.new s = Name.new t →
      Name.hashWith g (Name.new s) = Name.hashWith g (Name.new t)) := by
  refine ⟨?_, Iff.rfl, fun hxy => congrArg _ hxy, ?_, ?_,
    fun hst => congrArg _ hst⟩
  · exact ⟨fun hab => congrArg Id.val hab, fun hab => congrArg Id.mk hab⟩
  · exact ⟨fun hab => congrArg Name.val hab, fun hab => congrArg Name.mk hab⟩
  · show s < t ↔ List.Lex (· < ·) s.data t.data
    rw [String.lt_iff_toList_lt]
    exact Iff.rfl

theorem eq_ord_hash_delegation_witness :
    ((Id.new 5 = Id.new 5) ↔ (5 : Nat) = 5) ∧
    Id.hashWith Nat.succ (Id.new 5) = Id.hashWith Nat.succ (Id.new 5) ∧
    Name.hashWith String.length (Name.new "a") =
      Name.hashWith String.length (Name.new "a") :=
  ⟨(eq_ord_hash_delegation 5 5 "a" "a" Nat.succ String.length).1,
   (eq_ord_hash_delegation 5 5 "a" "a" Nat.succ String.length).2.2.1 rfl,
   (eq_ord_hash_delegation 5 5 "a" "a" Nat.succ String.length).2.2.2.2.2 rfl⟩

/-- Claim C6: deserialization fails with a type-mismatch error exactly
when the structured input is not of the expected primitive shape — an
identifier read from a JSON string fails with a type error, a name or
secret read from a JSON number fails with a type error, and a failed
deserialization produces an error only, never a value. -/
theorem deserialize_type_mismatch (s : String) (n : Int) (j : Json) :
    isTypeErr (Id.deserialize (Json.str s)) = true ∧
    isTypeErr (Name.deserialize (Json.num n)) = true ∧
    isTypeErr (Secret.deserialize (Json.num n)) = true ∧
    (isTypeErr (Id.deserialize j) = true ↔ j.kind ≠ JsonKind.numK) ∧
    (isTypeErr (Name.deserialize j) = true ↔ j.kind ≠ JsonKind.strK) ∧
    (isTypeErr (Secret.deserialize j) = true ↔ j.kind ≠ JsonKind.strK) ∧
    (∀ e, Id.deserialize j = .error e → ∀ a, Id.deserialize j ≠ .ok a) := by
  refine ⟨rfl, rfl, rfl, ?_, ?_, ?_, ?_⟩
  · cases j with
    | num m =>
        refine iff_of_false ?_ (by simp [Json.kind])
        simp only [Id.deserialize, deserializeU64]
        split <;> simp [isTypeErr, Except.map]
    | null => simp [Id.deserialize, deserializeU64, isTypeErr, Except.map, Json.kind]
    | bool b => simp [Id.deserialize, deserializeU64, isTypeErr, Except.map, Json.kind]
    | str t => simp [Id.deserialize, deserializeU64, isTypeErr, Except.map, Json.kind]
    | arr xs => simp [Id.deserialize, deserializeU64, isTypeErr, Except.map, Json.kind]
    | obj ms => simp [Id.deserialize, deserializeU64, isTypeErr, Except.map, Json.kind]
  · cases j <;>
      simp [Name.deserialize, deserializeString, isTypeErr, Except.map, Json.kind]
  · cases j <;>
      simp [Secret.deserialize, deserializeString, isTypeErr, Except.map, Json.kind]
  · intro e he a
    rw [he]
    simp

theorem deserialize_type_mismatch_witness :
    isTypeErr (Id.deserialize (Json.str "42")) = true ∧
    isTypeErr (Name.deserialize (Json.num 7)) = true ∧
    isTypeErr (Secret.deserialize (Json.num 7)) = true :=
  ⟨(deserialize_type_mismatch "42" 7 Json.null).1,
   (deserialize_type_mismatch "42" 7 Json.null).2.1,
   (deserialize_type_mismatch "42" 7 Json.null).2.2.1⟩

/-- Claim C1 as stated is too strong: the Display rendering of a secret
is the constant string "[REDACTED]", so a secret whose content is
itself a substring of the marker — here the content "RED" — renders to
text that does contain that content. -/
theorem redaction_contains_counterexample :
    Secret.display (Secret.new "RED") = "[REDACTED]" ∧
    strContains (Secret.display (Secret.new "RED")) "RED" = true :=
  ⟨rfl, by decide⟩

/-- Claim C1 (amended): the Display rendering of every secret value,
however constructed, equals the fixed marker "[REDACTED]"; hence it
never contains the secret content except when that content happens to
be a substring of the marker itself. -/
theorem redaction_invariant_amended (s : Secret) (c : String)
    (h : strContains "[REDACTED]" c = false) :
    Secret.display s = "[REDACTED]" ∧
    strContains (Secret.display s) c = false :=
  ⟨rfl, h⟩

theorem redaction_invariant_witness :
    Secret.display (Secret.new "hunter2") = "[REDACTED]" ∧
    strContains (Secret.display (Secret.new "hunter2")) "hunter2" = false :=
  redaction_invariant_amended (Secret.new "hunter2") "hunter2" (by decide)

end Idtype
